import Mathlib

/-!
Verification of the orders HTTP service core: the Order data model, the
validator (`validate_order`, `validate_status`), the store operations
(`get_order_by_id`, `create_order`, `update_order`, `update_order_status`,
`delete_order`), the error taxonomy (`ApiError`) with its HTTP response
mapping, and the thin handler orchestration.

The store (a SQLite table keyed by `id`) is modelled as a `List Order` of
rows; each store operation returns its result together with the table state
after the operation, mirroring the SQL statements it issues:
`SELECT ... WHERE id = ?` with `fetch_optional` is `List.find?`,
`UPDATE ... WHERE id = ?` maps every matching row and reports the number of
matching rows as `rows_affected`, `DELETE ... WHERE id = ?` removes every
matching row, `INSERT` appends a row.  Rust `u32` fields are modelled as
`Nat` (no arithmetic is performed on them), Rust `String::len` (UTF-8 bytes)
as `String.utf8ByteSize`, and `str::trim` as `rust_trim`.
-/

instance {ε α : Type} [DecidableEq ε] [DecidableEq α] : DecidableEq (Except ε α)
  | .error e, .error f =>
      if h : e = f then isTrue (h ▸ rfl)
      else isFalse (fun hh => h (by injection hh))
  | .error _, .ok _ => isFalse (fun hh => Except.noConfusion hh)
  | .ok _, .error _ => isFalse (fun hh => Except.noConfusion hh)
  | .ok x, .ok y =>
      if h : x = y then isTrue (h ▸ rfl)
      else isFalse (fun hh => h (by injection hh))

/-- The order entity: `src/utils/db_utils.rs`, `struct Order`. -/
structure Order where
  id : Nat
  item : String
  status : String
  quantity : Nat
deriving Repr, DecidableEq

/-- `src/validators/order_validator.rs`, `struct ValidationError`. -/
structure ValidationError where
  error : String
  field : Option String
deriving Repr, DecidableEq

/-- `src/validators/order_validator.rs`, `struct ServerError`. -/
structure ServerError where
  error : String
  message : String
deriving Repr, DecidableEq

/-- `src/validators/order_validator.rs`, `enum ApiError`. -/
inductive ApiError where
  | Validation (err : ValidationError)
  | Server (err : ServerError)
  | NotFound (message : String)
deriving Repr, DecidableEq

/-- Model of Rust `str::trim`: drop leading and trailing whitespace.
Defined over the character list so that it is kernel-computable (Lean's own
`String.trim` is defined by well-founded recursion over byte positions). -/
def rust_trim (s : String) : String :=
  String.mk (((s.data.dropWhile Char.isWhitespace).reverse.dropWhile
    Char.isWhitespace).reverse)

/-- The fixed status set of `validate_order` / `validate_status`. -/
def valid_statuses : List String :=
  ["pending", "processing", "shipped", "delivered", "cancelled"]

/-- `src/validators/order_validator.rs`, `fn validate_order`. -/
def validate_order (order : Order) : Except ValidationError Unit :=
  if order.id = 0 then
    .error { error := "Order ID must be greater than 0", field := some "id" }
  else if (rust_trim order.item).isEmpty then
    .error { error := "Item name cannot be empty", field := some "item" }
  else if order.item.utf8ByteSize > 100 then
    .error { error := "Item name cannot exceed 100 characters", field := some "item" }
  else if !(valid_statuses.contains order.status) then
    .error { error := "Status must be one of: " ++ String.intercalate ", " valid_statuses,
             field := some "status" }
  else if order.quantity = 0 then
    .error { error := "Quantity must be greater than 0", field := some "quantity" }
  else if order.quantity > 1000 then
    .error { error := "Quantity cannot exceed 1000", field := some "quantity" }
  else
    .ok ()

/-- `src/validators/order_validator.rs`, `fn validate_status`. -/
def validate_status (status : String) : Except ValidationError Unit :=
  if !(valid_statuses.contains status) then
    .error { error := "Status must be one of: " ++ String.intercalate ", " valid_statuses,
             field := some "status" }
  else
    .ok ()

/-- `src/utils/db_utils.rs`, `fn get_order_by_id`:
`SELECT ... WHERE id = ?` with `fetch_optional` returns the first matching
row, if any.  Read-only, so only the result is returned. -/
def get_order_by_id (db : List Order) (order_id : Nat) : Option Order :=
  db.find? (fun o => o.id == order_id)

/-- `src/utils/db_utils.rs`, `fn create_order`: existence check via
`get_order_by_id`, then `INSERT`. -/
def create_order (db : List Order) (order : Order) :
    Except ApiError Order × List Order :=
  match get_order_by_id db order.id with
  | some _ =>
      (.error (.Validation
        { error := "Order with ID " ++ toString order.id ++ " already exists",
          field := some "id" }), db)
  | none => (.ok order, db ++ [order])

/-- `src/utils/db_utils.rs`, `fn update_order`:
`UPDATE orders SET item = ?, status = ?, quantity = ? WHERE id = ?`, then
`NotFound` when `rows_affected` is zero, else the body with its `id` forced
to the path id. -/
def update_order (db : List Order) (order_id : Nat) (order : Order) :
    Except ApiError Order × List Order :=
  let new_db := db.map (fun o =>
    if o.id == order_id then
      { o with item := order.item, status := order.status, quantity := order.quantity }
    else o)
  let rows_affected := (db.filter (fun o => o.id == order_id)).length
  if rows_affected = 0 then
    (.error (.NotFound "Order not found"), new_db)
  else
    (.ok { order with id := order_id }, new_db)

/-- `src/utils/db_utils.rs`, `fn update_order_status`:
`UPDATE orders SET status = ? WHERE id = ?`, `NotFound` when `rows_affected`
is zero, else re-read the row via `get_order_by_id`. -/
def update_order_status (db : List Order) (order_id : Nat) (status : String) :
    Except ApiError Order × List Order :=
  let new_db := db.map (fun o =>
    if o.id == order_id then { o with status := status } else o)
  let rows_affected := (db.filter (fun o => o.id == order_id)).length
  if rows_affected = 0 then
    (.error (.NotFound "Order not found"), new_db)
  else
    match get_order_by_id new_db order_id with
    | some o => (.ok o, new_db)
    | none => (.error (.NotFound "Order not found"), new_db)

/-- The tail of `fn delete_order` after the `DELETE` statement ran: the
`rows_affected == 0` check that turns a vanished row into `NotFound`. -/
def delete_finish (order : Order) (rows_affected : Nat) (new_db : List Order) :
    Except ApiError Order × List Order :=
  if rows_affected = 0 then
    (.error (.NotFound "Order not found"), new_db)
  else
    (.ok order, new_db)

/-- `src/utils/db_utils.rs`, `fn delete_order`: read the row first
(`NotFound` if absent), then `DELETE ... WHERE id = ?` and `delete_finish`
on its `rows_affected`. -/
def delete_order (db : List Order) (order_id : Nat) :
    Except ApiError Order × List Order :=
  match get_order_by_id db order_id with
  | none => (.error (.NotFound "Order not found"), db)
  | some order =>
      let new_db := db.filter (fun o => !(o.id == order_id))
      delete_finish order (db.length - new_db.length) new_db

/-- `src/handlers/handlers.rs`, `fn get_order_by_id` (the GET handler):
absence becomes `NotFound "Order not found"`. -/
def get_order_by_id_handler (db : List Order) (id : Nat) : Except ApiError Order :=
  match get_order_by_id db id with
  | some order => .ok order
  | none => .error (.NotFound "Order not found")

/-- `src/handlers/handlers.rs`, `fn update_order_by_id` (the PUT handler):
validates the whole body, then calls the store `update_order`. -/
def update_order_by_id (db : List Order) (id : Nat) (updated_order : Order) :
    Except ApiError Order × List Order :=
  match validate_order updated_order with
  | .error e => (.error (.Validation e), db)
  | .ok _ => update_order db id updated_order

/-- A JSON value as it appears in the error bodies: a string or `null`. -/
inductive JsonValue where
  | str (s : String)
  | null
deriving Repr, DecidableEq

/-- An HTTP response: status code plus JSON object body (field list). -/
structure HttpResponse where
  status : Nat
  body : List (String × JsonValue)
deriving Repr, DecidableEq

/-- Serialization of an `Option<String>` field. -/
def jsonOfOption : Option String → JsonValue
  | some s => .str s
  | none => .null

/-- `impl IntoResponse for ValidationError`: HTTP 400, body `{error, field}`. -/
def ValidationError.into_response (e : ValidationError) : HttpResponse :=
  { status := 400, body := [("error", .str e.error), ("field", jsonOfOption e.field)] }

/-- `impl IntoResponse for ServerError`: HTTP 500, body `{error, message}`. -/
def ServerError.into_response (e : ServerError) : HttpResponse :=
  { status := 500, body := [("error", .str e.error), ("message", .str e.message)] }

/-- `impl IntoResponse for ApiError`. -/
def ApiError.into_response : ApiError → HttpResponse
  | .Validation err => err.into_response
  | .Server err => err.into_response
  | .NotFound message => { status := 404, body := [("error", .str message)] }

/-- The uniqueness-of-id invariant: each id identifies at most one row. -/
def UniqueIds (db : List Order) : Prop :=
  db.Pairwise (fun a b => a.id ≠ b.id)

/-- Spec-side validity (§3 / §8 of the spec): id>0, trimmed item non-empty,
item length ≤ 100, status in the fixed set, quantity in [1,1000]. -/
def ValidOrderSpec (o : Order) : Prop :=
  0 < o.id ∧ ¬(rust_trim o.item).isEmpty = true ∧ o.item.utf8ByteSize ≤ 100 ∧
    o.status ∈ valid_statuses ∧ 1 ≤ o.quantity ∧ o.quantity ≤ 1000

/-- The item string of the C9 counterexample: one letter followed by one
hundred trailing spaces, so its trimmed length is 1 but its untrimmed length
is 101. -/
def c9_item : String := "a" ++ String.mk (List.replicate 100 ' ')

/-! ## Basic lemmas about the store model -/

theorem get_order_by_id_eq_none_iff {db : List Order} {i : Nat} :
    get_order_by_id db i = none ↔ ∀ o ∈ db, o.id ≠ i := by
  simp [get_order_by_id, List.find?_eq_none]

theorem get_order_by_id_some {db : List Order} {i : Nat} {o : Order}
    (h : get_order_by_id db i = some o) : o ∈ db ∧ o.id = i := by
  refine ⟨List.mem_of_find?_eq_some h, ?_⟩
  have hp := List.find?_some h
  simpa using hp

theorem get_order_by_id_map_update (db : List Order) (i : Nat) (g : Order → Order)
    (hg : ∀ o, (g o).id = o.id) :
    get_order_by_id (db.map (fun o => if o.id == i then g o else o)) i =
      Option.map g (get_order_by_id db i) := by
  induction db with
  | nil => rfl
  | cons a l ih =>
    simp only [List.map_cons]
    by_cases h : a.id = i
    · rw [if_pos (by simpa using h)]
      unfold get_order_by_id
      rw [List.find?_cons_of_pos _ (by simp [hg, h]),
          List.find?_cons_of_pos _ (by simp [h])]
      rfl
    · rw [if_neg (by simpa using h)]
      unfold get_order_by_id
      rw [List.find?_cons_of_neg _ (by simp [h]), List.find?_cons_of_neg _ (by simp [h])]
      exact ih

theorem filter_id_eq_nil_iff (db : List Order) (i : Nat) :
    db.filter (fun o => o.id == i) = [] ↔ get_order_by_id db i = none := by
  rw [get_order_by_id_eq_none_iff, List.filter_eq_nil_iff]
  simp

theorem get_order_by_id_filter_ne (db : List Order) (i : Nat) :
    get_order_by_id (db.filter (fun o => !(o.id == i))) i = none := by
  rw [get_order_by_id_eq_none_iff]
  intro o ho
  have hp := (List.mem_filter.mp ho).2
  simpa using hp

theorem get_order_by_id_append_single (db : List Order) (o : Order)
    (h : get_order_by_id db o.id = none) :
    get_order_by_id (db ++ [o]) o.id = some o := by
  unfold get_order_by_id at *
  rw [List.find?_append, h]
  simp

theorem map_update_no_match (db : List Order) (i : Nat) (g : Order → Order)
    (h : ∀ o ∈ db, o.id ≠ i) :
    db.map (fun o => if o.id == i then g o else o) = db := by
  induction db with
  | nil => rfl
  | cons a l ih =>
    simp only [List.map_cons]
    rw [if_neg (by simpa using h a (List.mem_cons_self a l)),
        ih (fun o ho => h o (List.mem_cons_of_mem a ho))]

theorem contains_valid_statuses (s : String) :
    valid_statuses.contains s = true ↔ s ∈ valid_statuses :=
  List.elem_iff

theorem rows_affected_ne_zero {db : List Order} {i : Nat} {o : Order}
    (h : get_order_by_id db i = some o) :
    (db.filter (fun r => r.id == i)).length ≠ 0 := by
  rw [Ne, List.length_eq_zero]
  intro hnil
  rw [(filter_id_eq_nil_iff db i).mp hnil] at h
  cases h

theorem validate_order_ok_iff (o : Order) :
    validate_order o = .ok () ↔ ValidOrderSpec o := by
  unfold validate_order ValidOrderSpec
  split_ifs with h1 h2 h3 h4 h5 h6
  · constructor
    · intro h; exact h.elim
    · rintro ⟨ha, -, -, -, -, -⟩; omega
  · constructor
    · intro h; exact h.elim
    · rintro ⟨-, hb, -, -, -, -⟩; exact absurd h2 hb
  · constructor
    · intro h; exact h.elim
    · rintro ⟨-, -, hc, -, -, -⟩; omega
  · constructor
    · intro h; exact h.elim
    · rintro ⟨-, -, -, hd, -, -⟩
      rw [Bool.not_eq_true', Bool.eq_false_iff] at h4
      exact h4 (contains_valid_statuses o.status |>.mpr hd)
  · constructor
    · intro h; exact h.elim
    · rintro ⟨-, -, -, -, he, -⟩; omega
  · constructor
    · intro h; exact h.elim
    · rintro ⟨-, -, -, -, -, hf⟩; omega
  · constructor
    · intro _
      refine ⟨by omega, h2, by omega, ?_, by omega, by omega⟩
      rw [Bool.not_eq_true', Bool.not_eq_false] at h4
      exact (contains_valid_statuses o.status).mp h4
    · intro _; rfl

/-! ## Claim theorems -/

/-- C1: `validate_order` applies exactly six checks in a fixed order,
short-circuiting at the first failure (id > 0; trimmed item non-empty; item
length at most 100; status in the fixed five-value set; quantity at least 1;
quantity at most 1000), returns the specified message and field on the first
violated rule, and succeeds iff all six checks pass. -/
theorem validate_order_six_checks (o : Order) :
    (validate_order o = .ok () ↔ ValidOrderSpec o) ∧
    (¬0 < o.id →
      validate_order o = .error ⟨"Order ID must be greater than 0", some "id"⟩) ∧
    (0 < o.id → (rust_trim o.item).isEmpty = true →
      validate_order o = .error ⟨"Item name cannot be empty", some "item"⟩) ∧
    (0 < o.id → ¬(rust_trim o.item).isEmpty = true → 100 < o.item.utf8ByteSize →
      validate_order o = .error ⟨"Item name cannot exceed 100 characters", some "item"⟩) ∧
    (0 < o.id → ¬(rust_trim o.item).isEmpty = true → o.item.utf8ByteSize ≤ 100 →
      o.status ∉ valid_statuses →
      validate_order o = .error
        ⟨"Status must be one of: pending, processing, shipped, delivered, cancelled",
         some "status"⟩) ∧
    (0 < o.id → ¬(rust_trim o.item).isEmpty = true → o.item.utf8ByteSize ≤ 100 →
      o.status ∈ valid_statuses → o.quantity < 1 →
      validate_order o = .error ⟨"Quantity must be greater than 0", some "quantity"⟩) ∧
    (0 < o.id → ¬(rust_trim o.item).isEmpty = true → o.item.utf8ByteSize ≤ 100 →
      o.status ∈ valid_statuses → 1 ≤ o.quantity → 1000 < o.quantity →
      validate_order o = .error ⟨"Quantity cannot exceed 1000", some "quantity"⟩) := by
  refine ⟨validate_order_ok_iff o, ?_, ?_, ?_, ?_, ?_, ?_⟩
  · intro ha
    unfold validate_order
    rw [if_pos (by omega)]
  · intro ha hb
    unfold validate_order
    rw [if_neg (by omega), if_pos hb]
  · intro ha hb hc
    unfold validate_order
    rw [if_neg (by omega), if_neg hb, if_pos (by omega)]
  · intro ha hb hc hd
    unfold validate_order
    rw [if_neg (by omega), if_neg hb, if_neg (by omega),
        if_pos (by
          rw [Bool.not_eq_true', Bool.eq_false_iff]
          intro hcon
          exact hd ((contains_valid_statuses o.status).mp hcon))]
    rfl
  · intro ha hb hc hd he
    unfold validate_order
    rw [if_neg (by omega), if_neg hb, if_neg (by omega),
        if_neg (by
          rw [Bool.not_eq_true', Bool.not_eq_false]
          exact (contains_valid_statuses o.status).mpr hd),
        if_pos (by omega)]
  · intro ha hb hc hd he hf
    unfold validate_order
    rw [if_neg (by omega), if_neg hb, if_neg (by omega),
        if_neg (by
          rw [Bool.not_eq_true', Bool.not_eq_false]
          exact (contains_valid_statuses o.status).mpr hd),
        if_neg (by omega), if_pos (by omega)]

/-- C1 witness: the checks evaluated at concrete orders. -/
theorem validate_order_six_checks_witness :
    validate_order (Order.mk 0 "Test Item" "pending" 5) =
      .error ⟨"Order ID must be greater than 0", some "id"⟩ :=
  (validate_order_six_checks (Order.mk 0 "Test Item" "pending" 5)).2.1 (by decide)

/-- C2: creating an order whose id is already stored fails with a
`Validation` error "Order with ID {id} already exists" on field `id`, the
store is unchanged (so the existing order is unmodified), and `create_order`
preserves the uniqueness-of-id invariant. -/
theorem create_order_duplicate (db : List Order) (order : Order) :
    (∀ e, get_order_by_id db order.id = some e →
      create_order db order =
        (.error (.Validation
          { error := "Order with ID " ++ toString order.id ++ " already exists",
            field := some "id" }), db)) ∧
    (UniqueIds db → UniqueIds (create_order db order).2) := by
  constructor
  · intro e he
    unfold create_order
    rw [he]
  · intro hu
    unfold create_order
    cases h : get_order_by_id db order.id with
    | some _ => exact hu
    | none =>
      unfold UniqueIds at *
      rw [List.pairwise_append]
      refine ⟨hu, List.pairwise_singleton _ _, ?_⟩
      intro a ha b hb
      have hb' : b = order := by simpa using hb
      subst hb'
      exact get_order_by_id_eq_none_iff.mp h a ha

/-- C2 witness: duplicate create at a concrete store. -/
theorem create_order_duplicate_witness :
    create_order [Order.mk 1 "A" "pending" 1] (Order.mk 1 "B" "shipped" 2) =
      (.error (.Validation ⟨"Order with ID 1 already exists", some "id"⟩),
       [Order.mk 1 "A" "pending" 1]) :=
  (create_order_duplicate [Order.mk 1 "A" "pending" 1] (Order.mk 1 "B" "shipped" 2)).1
    (Order.mk 1 "A" "pending" 1) rfl

/-- C3: if no order with id `o.id` is stored, `create_order` succeeds and
returns `o` unchanged, and a subsequent `get_order_by_id` on the new store
returns a value equal to `o`. -/
theorem create_order_roundtrip (db : List Order) (o : Order)
    (h : get_order_by_id db o.id = none) :
    create_order db o = (.ok o, db ++ [o]) ∧
      get_order_by_id (create_order db o).2 o.id = some o := by
  have hc : create_order db o = (.ok o, db ++ [o]) := by
    unfold create_order
    rw [h]
  exact ⟨hc, by rw [hc]; exact get_order_by_id_append_single db o h⟩

/-- C3 witness: round-trip at a concrete store. -/
theorem create_order_roundtrip_witness :
    create_order [] (Order.mk 1 "Test Item" "pending" 5) =
      (.ok (Order.mk 1 "Test Item" "pending" 5), [Order.mk 1 "Test Item" "pending" 5]) ∧
    get_order_by_id (create_order [] (Order.mk 1 "Test Item" "pending" 5)).2 1 =
      some (Order.mk 1 "Test Item" "pending" 5) :=
  create_order_roundtrip [] (Order.mk 1 "Test Item" "pending" 5) rfl

/-- C4: for a stored order with the given id, `update_order_status` succeeds
and returns the re-read full order whose `status` equals the new status while
`id`, `item` and `quantity` are the pre-update values; when no row matches it
fails with `NotFound` and the store is unchanged. -/
theorem update_order_status_frame (db : List Order) (i : Nat) (s : String) :
    (∀ o, get_order_by_id db i = some o →
      update_order_status db i s =
        (.ok (Order.mk o.id o.item s o.quantity),
         db.map (fun r => if r.id == i then { r with status := s } else r))) ∧
    (get_order_by_id db i = none →
      update_order_status db i s = (.error (.NotFound "Order not found"), db)) := by
  constructor
  · intro o ho
    simp only [update_order_status]
    rw [if_neg (rows_affected_ne_zero ho),
        get_order_by_id_map_update db i (fun r => { r with status := s }) (fun r => rfl), ho]
    rfl
  · intro h
    have hnil : db.filter (fun r => r.id == i) = [] := (filter_id_eq_nil_iff db i).mpr h
    simp only [update_order_status]
    rw [hnil, map_update_no_match db i _ (get_order_by_id_eq_none_iff.mp h)]
    rfl

/-- C4 witness: a status patch at a concrete store. -/
theorem update_order_status_frame_witness :
    update_order_status [Order.mk 1 "Test Item" "pending" 5] 1 "shipped" =
      (.ok (Order.mk 1 "Test Item" "shipped" 5), [Order.mk 1 "Test Item" "shipped" 5]) :=
  (update_order_status_frame [Order.mk 1 "Test Item" "pending" 5] 1 "shipped").1
    (Order.mk 1 "Test Item" "pending" 5) rfl

/-- C5: `delete_order` on an absent id fails with `NotFound` leaving the
store unchanged; on a stored order it returns the pre-deletion snapshot and
removes it, so a subsequent read returns absence; and the `rows_affected == 0`
check after the `DELETE` statement surfaces `NotFound` rather than a server
error. -/
theorem delete_order_spec (db : List Order) (i : Nat) :
    (get_order_by_id db i = none →
      delete_order db i = (.error (.NotFound "Order not found"), db)) ∧
    (∀ o, get_order_by_id db i = some o →
      delete_order db i = (.ok o, db.filter (fun r => !(r.id == i))) ∧
      get_order_by_id (delete_order db i).2 i = none) ∧
    (∀ o new_db, delete_finish o 0 new_db =
      (.error (.NotFound "Order not found"), new_db)) := by
  refine ⟨?_, ?_, fun o new_db => rfl⟩
  · intro h
    unfold delete_order
    rw [h]
  · intro o ho
    have hmem := (get_order_by_id_some ho).1
    have hid := (get_order_by_id_some ho).2
    have hlt : (db.filter (fun r => !(r.id == i))).length < db.length := by
      refine Nat.lt_of_le_of_ne (List.length_filter_le _ db) ?_
      intro heq
      have hall := List.filter_length_eq_length.mp heq o hmem
      simp [hid] at hall
    have hd : delete_order db i =
        (.ok o, db.filter (fun r => !(r.id == i))) := by
      unfold delete_order
      rw [ho]
      simp only [delete_finish]
      rw [if_neg (Nat.sub_ne_zero_of_lt hlt)]
    exact ⟨hd, by rw [hd]; exact get_order_by_id_filter_ne db i⟩

/-- C5 witness: delete at a concrete store. -/
theorem delete_order_spec_witness :
    delete_order [Order.mk 1 "A" "pending" 1] 1 = (.ok (Order.mk 1 "A" "pending" 1), []) ∧
    get_order_by_id (delete_order [Order.mk 1 "A" "pending" 1] 1).2 1 = none :=
  (delete_order_spec [Order.mk 1 "A" "pending" 1] 1).2.1 (Order.mk 1 "A" "pending" 1) rfl

/-- C6: on a matched path id, `update_order` replaces the stored row's
`item`, `status` and `quantity` with the body's values and both the returned
and the stored order carry the path id (a differing body id is ignored); when
no row matches it fails with `NotFound` and the store is unchanged. -/
theorem update_order_replaces_fields (db : List Order) (i : Nat) (body : Order) :
    (∀ o, get_order_by_id db i = some o →
      (update_order db i body).1 =
        .ok (Order.mk i body.item body.status body.quantity) ∧
      get_order_by_id (update_order db i body).2 i =
        some (Order.mk i body.item body.status body.quantity)) ∧
    (get_order_by_id db i = none →
      update_order db i body = (.error (.NotFound "Order not found"), db)) := by
  constructor
  · intro o ho
    have hid := (get_order_by_id_some ho).2
    have hu : update_order db i body =
        (.ok { body with id := i },
         db.map (fun r => if r.id == i then
           { r with item := body.item, status := body.status, quantity := body.quantity }
         else r)) := by
      simp only [update_order]
      rw [if_neg (rows_affected_ne_zero ho)]
    refine ⟨by rw [hu], ?_⟩
    rw [hu]
    show get_order_by_id (db.map _) i = _
    rw [get_order_by_id_map_update db i (fun r => { r with item := body.item, status := body.status, quantity := body.quantity }) (fun r => rfl), ho]
    simp [hid]
  · intro h
    have hnil : db.filter (fun r => r.id == i) = [] := (filter_id_eq_nil_iff db i).mpr h
    simp only [update_order]
    rw [hnil, map_update_no_match db i _ (get_order_by_id_eq_none_iff.mp h)]
    rfl

/-- C6 witness: a full update at a concrete store, body id ignored. -/
theorem update_order_replaces_fields_witness :
    (update_order [Order.mk 1 "A" "pending" 1] 1 (Order.mk 9 "B" "shipped" 2)).1 =
      .ok (Order.mk 1 "B" "shipped" 2) ∧
    get_order_by_id (update_order [Order.mk 1 "A" "pending" 1] 1
        (Order.mk 9 "B" "shipped" 2)).2 1 = some (Order.mk 1 "B" "shipped" 2) :=
  (update_order_replaces_fields [Order.mk 1 "A" "pending" 1] 1
    (Order.mk 9 "B" "shipped" 2)).1 (Order.mk 1 "A" "pending" 1) rfl

/-- C7: every `ApiError` crossing the handler boundary is one of exactly
three kinds, each mapped to a fixed HTTP status and JSON body shape:
`Validation` to 400 with `{error, field}`, `NotFound` to 404 with
`{error: message}`, `Server` to 500 with `{error, message}`; no other status
is produced. -/
theorem api_error_into_response_taxonomy :
    (∀ e : ValidationError, (ApiError.Validation e).into_response =
      { status := 400,
        body := [("error", .str e.error), ("field", jsonOfOption e.field)] }) ∧
    (∀ m : String, (ApiError.NotFound m).into_response =
      { status := 404, body := [("error", .str m)] }) ∧
    (∀ e : ServerError, (ApiError.Server e).into_response =
      { status := 500,
        body := [("error", .str e.error), ("message", .str e.message)] }) ∧
    (∀ e : ApiError, e.into_response.status = 400 ∨ e.into_response.status = 404 ∨
      e.into_response.status = 500) := by
  refine ⟨fun e => rfl, fun m => rfl, fun e => rfl, fun e => ?_⟩
  cases e with
  | Validation e => exact Or.inl rfl
  | Server e => exact Or.inr (Or.inr rfl)
  | NotFound m => exact Or.inr (Or.inl rfl)

/-- C8: on an id absent from the store, the GET handler, `update_order`,
`update_order_status` and `delete_order` all fail with
`NotFound "Order not found"`. -/
theorem absent_id_not_found (db : List Order) (i : Nat)
    (h : get_order_by_id db i = none) :
    get_order_by_id_handler db i = .error (.NotFound "Order not found") ∧
    (∀ body, (update_order db i body).1 = .error (.NotFound "Order not found")) ∧
    (∀ s, (update_order_status db i s).1 = .error (.NotFound "Order not found")) ∧
    (delete_order db i).1 = .error (.NotFound "Order not found") := by
  have hnil : db.filter (fun r => r.id == i) = [] := (filter_id_eq_nil_iff db i).mpr h
  refine ⟨?_, ?_, ?_, ?_⟩
  · unfold get_order_by_id_handler
    rw [h]
  · intro body
    simp only [update_order]
    rw [hnil]
    rfl
  · intro s
    simp only [update_order_status]
    rw [hnil]
    rfl
  · unfold delete_order
    rw [h]

/-- C8 witness: all four operations at an absent id of a concrete store. -/
theorem absent_id_not_found_witness :
    get_order_by_id_handler [Order.mk 1 "A" "pending" 1] 2 =
      .error (.NotFound "Order not found") ∧
    (∀ body, (update_order [Order.mk 1 "A" "pending" 1] 2 body).1 =
      .error (.NotFound "Order not found")) ∧
    (∀ s, (update_order_status [Order.mk 1 "A" "pending" 1] 2 s).1 =
      .error (.NotFound "Order not found")) ∧
    (delete_order [Order.mk 1 "A" "pending" 1] 2).1 =
      .error (.NotFound "Order not found") :=
  absent_id_not_found [Order.mk 1 "A" "pending" 1] 2 rfl

/-- C9 counterexample: an order with valid id, status and quantity whose
item has trimmed length 1 (within [1,100]) but is rejected by
`validate_order`, because the length check runs on the untrimmed string. -/
theorem validate_order_trimmed_length_cex :
    ¬(validate_order (Order.mk 1 c9_item "pending" 5) = .ok () ↔
      (1 ≤ (rust_trim (Order.mk 1 c9_item "pending" 5).item).length ∧
        (rust_trim (Order.mk 1 c9_item "pending" 5).item).length ≤ 100)) := by
  decide

/-- C9 (amended): for every order whose id, status and quantity fields are
valid, `validate_order` accepts the order iff the trimmed item is non-empty
and the untrimmed item byte length is at most 100. -/
theorem validate_order_item_condition (o : Order)
    (h1 : 0 < o.id) (h4 : o.status ∈ valid_statuses) (h5 : 1 ≤ o.quantity)
    (h6 : o.quantity ≤ 1000) :
    validate_order o = .ok () ↔
      (¬(rust_trim o.item).isEmpty = true ∧ o.item.utf8ByteSize ≤ 100) := by
  rw [validate_order_ok_iff]
  unfold ValidOrderSpec
  constructor
  · rintro ⟨-, hb, hc, -, -, -⟩
    exact ⟨hb, hc⟩
  · rintro ⟨hb, hc⟩
    exact ⟨h1, hb, hc, h4, h5, h6⟩

/-- C9 witness: the amended equivalence evaluated at a concrete order. -/
theorem validate_order_item_condition_witness :
    validate_order (Order.mk 1 "Test Item" "pending" 5) = .ok () ↔
      (¬(rust_trim (Order.mk 1 "Test Item" "pending" 5).item).isEmpty = true ∧
        (Order.mk 1 "Test Item" "pending" 5).item.utf8ByteSize ≤ 100) :=
  validate_order_item_condition (Order.mk 1 "Test Item" "pending" 5)
    (by decide) (by decide) (by decide) (by decide)

/-- C10: the PUT handler validates the whole body before calling the store,
so a body whose id is 0 is rejected with the Validation error
"Order ID must be greater than 0" and the store is untouched, even though on
success the stored id would come from the path. -/
theorem update_order_by_id_validates_body_id (db : List Order) (i : Nat)
    (body : Order) (h : body.id = 0) :
    update_order_by_id db i body =
      (.error (.Validation ⟨"Order ID must be greater than 0", some "id"⟩), db) := by
  unfold update_order_by_id validate_order
  rw [if_pos h]

/-- C10 witness: a PUT with body id 0 at a concrete store. -/
theorem update_order_by_id_validates_body_id_witness :
    update_order_by_id [Order.mk 1 "A" "pending" 1] 1 (Order.mk 0 "B" "shipped" 2) =
      (.error (.Validation ⟨"Order ID must be greater than 0", some "id"⟩),
       [Order.mk 1 "A" "pending" 1]) :=
  update_order_by_id_validates_body_id [Order.mk 1 "A" "pending" 1] 1
    (Order.mk 0 "B" "shipped" 2) rfl
